import Mathlib

/-!
Verification of the SkylinkJS signaling transport (socket-channel.js,
SkylinkSocket), the per-peer negotiation component (Peer), and the
user-data surface (Skylink.setUserData / getUserData / getPeerInfo).

Each definition is a shallow embedding of the corresponding JavaScript
function; machine behavior (timers, socket.io events, listener callbacks)
is made explicit as state passing plus emitted event lists.
-/

namespace SkylinkSocket

/-- The two socket transport kinds of the _transports table:
WebSocket is the primary kind, Polling the fallback. -/
inductive Transport
  | webSocket
  | polling
deriving DecidableEq, Repr

/-- The page protocol selecting which port list is used. -/
inductive Protocol
  | http
  | https
deriving DecidableEq, Repr

/-- The _connection.retries record. -/
structure Retries where
  max : Nat := 4
  delay : Nat := 1000
  current : Nat := 0
deriving DecidableEq, Repr

/-- The _connection record of SkylinkSocket. -/
structure Connection where
  path : Option String := none
  retries : Retries := {}
  port : Nat := 0
  transport : Transport := Transport.webSocket
  transportFallback : Bool := false
deriving DecidableEq, Repr

/-- The per-protocol port lists (SkylinkSocket.prototype.ports). -/
structure Ports where
  https : List Nat := []
  http : List Nat := []
deriving DecidableEq, Repr

/-- Selects ports[protocol]. -/
def Ports.get (ps : Ports) : Protocol → List Nat
  | Protocol.http => ps.http
  | Protocol.https => ps.https

/-- The default port lists (SkylinkSocket.prototype.defaults.ports). -/
def defaultPorts : Ports :=
  { http := [6001, 80, 3000], https := [443, 3443] }

/-- A message handed to SkylinkSocket.send; the type field selects queueing,
mid and rid are the envelope routing fields, body distinguishes payloads. -/
structure Msg where
  type : String := ""
  mid : String := ""
  rid : String := ""
  body : Nat := 0
deriving DecidableEq, Repr, Inhabited

/-- The _messaging.typesToQueue list: message types that must be queued
when fired too rapidly. -/
def typesToQueue : List String :=
  ["stream", "updateUserEvent", "roomLockEvent", "muteAudioEvent", "muteVideoEvent", "public"]

/-- The _messaging record: the outbound queue, the timestamp of the last
flush (none models the initial null, which JS coerces to 0), the flush
interval, the throughput cap, and the pending drain timer modeled as the
absolute time at which the scheduled timeout expires. -/
structure Messaging where
  queue : List Msg := []
  timestamp : Option Nat := none
  interval : Nat := 1000
  throughput : Nat := 16
  timer : Option Nat := none
deriving DecidableEq, Repr

/-- The whole SkylinkSocket state: configuration (server, ports, protocol,
timeout), the connected and dead flags, whether the _socket object has been
initialized by a connect call, the _connection record and the _messaging
record. -/
structure SocketState where
  server : String := "signaling.temasys.com.sg"
  timeout : Nat := 20000
  ports : Ports := {}
  protocol : Protocol := Protocol.https
  connected : Bool := false
  dead : Bool := false
  socketInit : Bool := false
  conn : Connection := {}
  messaging : Messaging := {}
deriving DecidableEq, Repr

/-- Protocol rendered as the JS window.location.protocol string. -/
def protocolString : Protocol → String
  | Protocol.http => "http:"
  | Protocol.https => "https:"

/-- Observable events of the transport: a connection attempt issued by
io.connect inside connect(), a connectError trigger with its code and the
transport kind at trigger time, and a connectRetry trigger. -/
inductive Ev
  | attempt (transport : Transport) (port : Nat)
  | connectError (code : Int) (transport : Transport)
  | connectRetry (fallbackType : String) (attempt : Nat)
deriving DecidableEq, Repr

/-- SkylinkSocket.prototype.connect: configures the first port when the
cursor is 0, rebuilds the path, clears the connected and dead flags,
constructs a socket.io client (modeled by socketInit plus an attempt event
carrying the transport kind and port used) and listens to events. -/
def connect (st : SocketState) : SocketState × List Ev :=
  let port := if st.conn.port == 0 then (st.ports.get st.protocol).headD 0 else st.conn.port
  let path := protocolString st.protocol ++ "//" ++ st.server ++ ":" ++ toString port
  let st' : SocketState :=
    { st with
      conn := { st.conn with port := port, path := some path }
      connected := false
      dead := false
      socketInit := true }
  (st', [Ev.attempt st'.conn.transport port])

/-- JavaScript Array.prototype.indexOf on a number array: index of the
first occurrence, -1 when absent. -/
def jsIndexOf (l : List Nat) (x : Nat) : Int :=
  match l with
  | [] => -1
  | a :: rest =>
    if a == x then 0
    else
      let r := jsIndexOf rest x
      if r == -1 then -1 else r + 1

/-- The tail of SkylinkSocket.prototype._reconnect after the port and
transport cursors have been updated: computes the fallbackType string from
the (possibly reassigned) index and the updated connection record, triggers
connectRetry with the current retry count, and calls connect. -/
def finishReconnect (st : SocketState) (index : Int) : SocketState × List Ev :=
  let fallbackType :=
    if 0 < index ∨ st.conn.transportFallback then
      match st.protocol, st.conn.transport with
      | Protocol.http, Transport.webSocket => "fallbackPortNonSSL"
      | Protocol.http, Transport.polling => "fallbackLongPollingNonSSL"
      | Protocol.https, Transport.webSocket => "fallbackPortSSL"
      | Protocol.https, Transport.polling => "fallbackLongPollingSSL"
    else "nonfallback"
  let res := connect st
  (res.1, Ev.connectRetry fallbackType st.conn.retries.current :: res.2)

/-- SkylinkSocket.prototype._reconnect: removes all listeners and
disconnects the old socket (no modeled state change), locates the current
port in the current protocol port list, then: when the port is not found,
refills empty port lists from the defaults and retries with index 0; when
the port is not the last, advances to the next port; when it is the last,
switches WebSocket to Polling at the first port with transportFallback set,
or, when already Polling, sets dead, triggers connectError(-3) and returns
without any further connection attempt. -/
def reconnectStep (st : SocketState) : SocketState × List Ev :=
  let ports := st.ports.get st.protocol
  let index := jsIndexOf ports st.conn.port
  if index == -1 then
    let ports' : Ports :=
      { https := if st.ports.https.isEmpty then defaultPorts.https else st.ports.https
        http := if st.ports.http.isEmpty then defaultPorts.http else st.ports.http }
    finishReconnect { st with ports := ports' } 0
  else if index < (ports.length : Int) - 1 then
    let st' := { st with conn := { st.conn with port := ports.getD (index.toNat + 1) 0 } }
    finishReconnect st' index
  else if st.conn.transport == Transport.webSocket then
    let st' :=
      { st with
        conn :=
          { st.conn with
            transport := Transport.polling
            port := ports.headD 0
            transportFallback := true } }
    finishReconnect st' index
  else
    ({ st with dead := true }, [Ev.connectError (-3) st.conn.transport])

/-- Iterates reconnectStep n times (one invocation per reconnect_failed
event of a live connection attempt), collecting the emitted events. -/
def runFails : Nat → SocketState → SocketState × List Ev
  | 0, st => (st, [])
  | n + 1, st =>
    let r1 := reconnectStep st
    let r2 := runFails n r1.1
    (r2.1, r1.2 ++ r2.2)

/-- The connection attempts contained in an event list, as pairs of
transport kind and port. -/
def attemptsOf (evs : List Ev) : List (Transport × Nat) :=
  evs.filterMap fun e =>
    match e with
    | Ev.attempt tr p => some (tr, p)
    | _ => none

/-- The number of connectError events with a given code in an event list. -/
def errCount (code : Int) (evs : List Ev) : Nat :=
  (evs.filter fun e =>
    match e with
    | Ev.connectError c _ => c == code
    | _ => false).length

/-- A wire-level payload produced by the send path: either a singleton
message sent immediately, or the group envelope built by the queue drain
(type group, lists, and the mid and rid taken from the first queued
message). -/
inductive Wire
  | single (m : Msg)
  | group (lists : List Msg) (mid rid : String)
deriving DecidableEq, Repr

/-- The original messages carried by a wire payload. -/
def Wire.payload : Wire → List Msg
  | Wire.single m => [m]
  | Wire.group l _ _ => l

/-- The outcome of the callback inside SkylinkSocket.prototype.send for one
wire payload: transmitted over the socket, or dropped with a logged warning
because the socket object is not initialized, or dropped with a logged
warning because the socket is not connected. -/
inductive Disposition
  | sent
  | droppedNoSocket
  | droppedNotConnected
deriving DecidableEq, Repr

/-- One invocation of the send callback: the wire payload together with
its disposition. -/
structure Output where
  wire : Wire
  disp : Disposition
deriving DecidableEq, Repr

/-- The callback passed by send to _limitMessageInterval: drops the payload
with a warning when _socket is uninitialized, drops it with a warning when
not connected, and otherwise stringifies and transmits it. -/
def sendFn (st : SocketState) (w : Wire) : Output :=
  if st.socketInit = false then { wire := w, disp := Disposition.droppedNoSocket }
  else if st.connected = false then { wire := w, disp := Disposition.droppedNotConnected }
  else { wire := w, disp := Disposition.sent }

/-- The delayFn closure of _limitMessageInterval, executed when the drain
timeout fires at time t: when the queue is nonempty, reads the first queued
message for the envelope mid and rid; when the queue holds fewer than
throughput messages it drains all of them into one group envelope and
clears the timer, otherwise it drains exactly throughput messages and
reschedules another drain one interval later; either way the flush
timestamp is set to the current time. -/
def delayFn (st : SocketState) (t : Nat) : SocketState × List Output :=
  let mg := st.messaging
  if mg.queue.length > 0 then
    let data := mg.queue.headD default
    if mg.queue.length < mg.throughput then
      let w := Wire.group mg.queue data.mid data.rid
      ({ st with messaging := { mg with queue := [], timer := none, timestamp := some t } },
        [sendFn st w])
    else
      let w := Wire.group (mg.queue.take mg.throughput) data.mid data.rid
      ({ st with
          messaging :=
            { mg with
              queue := mg.queue.drop mg.throughput
              timer := some (t + mg.interval)
              timestamp := some t } },
        [sendFn st w])
  else (st, [])

/-- SkylinkSocket.prototype.send at time t, inlining _limitMessageInterval:
when the elapsed time since the last flush is below the interval and the
message type is in typesToQueue, the message is appended to the queue and,
when no drain timer is pending, a drain is scheduled to expire one interval
after the last flush timestamp; otherwise the message is handed to the send
callback immediately as a singleton and the flush timestamp is reset. -/
def send (st : SocketState) (m : Msg) (t : Nat) : SocketState × List Output :=
  let mg := st.messaging
  let tsVal := mg.timestamp.getD 0
  if t - tsVal < mg.interval ∧ m.type ∈ typesToQueue then
    let timer' := if mg.timer.isNone then some (tsVal + mg.interval) else mg.timer
    ({ st with messaging := { mg with queue := mg.queue ++ [m], timer := timer' } }, [])
  else
    ({ st with messaging := { mg with timestamp := some t } }, [sendFn st (Wire.single m)])

/-- External stimuli of the send path: a send call at a given time, or the
pending drain timeout firing at its expiry time. -/
inductive SockEv
  | submit (m : Msg) (t : Nat)
  | fire (t : Nat)
deriving DecidableEq, Repr

/-- One stimulus step: a submit runs send; a fire runs delayFn exactly when
a drain timeout with that expiry is pending, and is a no-op otherwise. -/
def stepSock (st : SocketState) (e : SockEv) : SocketState × List Output :=
  match e with
  | SockEv.submit m t => send st m t
  | SockEv.fire t => if st.messaging.timer = some t then delayFn st t else (st, [])

/-- Runs a list of stimuli, collecting the send-callback outputs. -/
def runSock (st : SocketState) : List SockEv → SocketState × List Output
  | [] => (st, [])
  | e :: rest =>
    let r1 := stepSock st e
    let r2 := runSock r1.1 rest
    (r2.1, r1.2 ++ r2.2)

/-- The messages submitted by a stimulus list, in submission order. -/
def submittedOf (evs : List SockEv) : List Msg :=
  evs.filterMap fun e =>
    match e with
    | SockEv.submit m _ => some m
    | _ => none

end SkylinkSocket

namespace ICE

/-- Modelled from the spec: the ICE module (ICE.addCandidate and the drain
of buffered candidates) is not under src; only its call sites Peer.bind,
which initializes queueCandidate to an empty list, and Peer.onIceCandidate,
which forwards each received candidate to ICE.addCandidate, are present.
Per the spec, candidates received before the remote description is applied
are appended to the buffer in arrival order; immediately after the remote
description is successfully applied, the buffered candidates are applied to
the peer-connection primitive in order, each exactly once, and subsequent
candidates are applied immediately. The state tracks the buffer and the
list of candidates applied to the primitive, in application order. -/
structure IceState (C : Type) where
  remoteApplied : Bool := false
  queueCandidate : List C := []
  applied : List C := []
deriving DecidableEq, Repr

/-- Modelled from the spec: ICE.addCandidate buffers the candidate while
the remote description is not yet applied, and applies it to the primitive
immediately afterwards. -/
def addCandidate {C : Type} (st : IceState C) (c : C) : IceState C :=
  if st.remoteApplied then { st with applied := st.applied ++ [c] }
  else { st with queueCandidate := st.queueCandidate ++ [c] }

/-- Modelled from the spec: the drain step triggered exactly once when the
remote description is successfully applied; every buffered candidate is
applied in arrival order and the buffer is emptied. -/
def drainOnRemoteApplied {C : Type} (st : IceState C) : IceState C :=
  { st with
    remoteApplied := true
    applied := st.applied ++ st.queueCandidate
    queueCandidate := [] }

end ICE

namespace Peer

/-- The audio part of a stream configuration holding the stereo flag; the
surrounding Option models a configuration where audio is absent or not an
object, in which case the guarded access com.stream.config.audio.stereo
throws and fn.isSafe yields false. -/
structure AudioCfg where
  stereo : Bool
deriving DecidableEq, Repr

/-- The config of the stream object attached to the peer. -/
structure StreamCfg where
  audio : Option AudioCfg := none
deriving DecidableEq, Repr

/-- The stream object attached to the peer (com.stream). -/
structure StreamObj where
  config : StreamCfg := {}
deriving DecidableEq, Repr

/-- A data channel, identified by its label; the DataChannel constructor is
external to src, so only the label placement matters here. -/
structure Chan where
  label : String
deriving DecidableEq, Repr

/-- The com.datachannels object: the distinguished main channel, the
transfers mapping keyed by label, and the stray own properties that a
bracket assignment com.datachannels[key] creates beside main and transfers. -/
structure DataChannels where
  main : Option Chan := none
  transfers : List (String × Chan) := []
  direct : List (String × Chan) := []
deriving DecidableEq, Repr

/-- A session description: its type (offer or answer) and its sdp text. -/
structure SessionDesc where
  type : String
  sdp : String
deriving DecidableEq, Repr

/-- The Peer state: identifiers, the readyState field (set to new at
construction and never reassigned anywhere in the source), the attached
stream, the datachannels object, the candidate buffer installed on the
bound RTCPeerConnection, and the newSignalingState field maintained on it. -/
structure PeerState where
  id : Option String := none
  userId : Option String := none
  readyState : String := "new"
  stream : Option StreamObj := none
  datachannels : DataChannels := {}
  ice : ICE.IceState String := {}
  newSignalingState : String := "new"
deriving DecidableEq, Repr

/-- The SDP module consumed by setLocalDescription; its three transforms
are external to src and enter the model as abstract line rewriters. -/
structure SDPTransforms where
  removeH264Support : List String → List String
  addStereo : List String → List String
  setBitrate : List String → Nat → List String

/-- The CRLF separator used by the split and join around the transforms. -/
def crlf : String := "\r\n"

/-- An event payload handed to the listener callback. -/
inductive PPayload
  | nonePayload
  | err (e : String)
  | desc (d : SessionDesc)
deriving DecidableEq, Repr

/-- Observable actions of a Peer operation, in execution order: calls into
the peer-connection primitive and listener events with their payloads. -/
inductive PAct
  | callCreateOffer
  | callCreateAnswer
  | callSetLocal (d : SessionDesc)
  | callSetRemote (d : SessionDesc)
  | emit (name : String) (p : PPayload)
deriving DecidableEq, Repr

/-- fn.isSafe over com.stream.config.audio.stereo: true exactly when the
stream, its audio config object and the stereo flag are all present and the
flag is true; any missing link throws inside isSafe and yields false. -/
def stereoEnabled (st : PeerState) : Bool :=
  match st.stream with
  | none => false
  | some s =>
    match s.config.audio with
    | none => false
    | some a => a.stereo

/-- The sdp rewrite inside setLocalDescription: split into lines, strip the
H264 codec lines, inject stereo when the local audio configuration asks for
it, inject bitrate attributes when a sending bandwidth cap is configured,
and join the lines back. -/
def transformLocalSdp (T : SDPTransforms) (bandwidth : Option Nat) (st : PeerState)
    (sdp : String) : String :=
  let sdpLines := sdp.splitOn crlf
  let sdpLines := T.removeH264Support sdpLines
  let sdpLines := if stereoEnabled st then T.addStereo sdpLines else sdpLines
  let sdpLines :=
    match bandwidth with
    | some bw => T.setBitrate sdpLines bw
    | none => sdpLines
  String.intercalate crlf sdpLines

/-- Peer setLocalDescription: rewrites the locally generated sdp through
the transform pipeline, hands the rewritten description to the primitive
setLocalDescription (whose outcome is the primResult parameter), and on
success emits the success event and records have-local-answer for answers,
while on failure it emits the error event with the error payload and
leaves the state unchanged. -/
def setLocalDescription (T : SDPTransforms) (bandwidth : Option Nat) (st : PeerState)
    (d : SessionDesc) (primResult : Except String Unit) : PeerState × List PAct :=
  let d' : SessionDesc := { d with sdp := transformLocalSdp T bandwidth st d.sdp }
  match primResult with
  | Except.ok _ =>
    let st' :=
      if d'.type == "answer" then { st with newSignalingState := "have-local-answer" } else st
    (st', [PAct.callSetLocal d', PAct.emit "peer:local_description:success" PPayload.nonePayload])
  | Except.error e =>
    (st, [PAct.callSetLocal d', PAct.emit "peer:local_description:error" (PPayload.err e)])

/-- Peer createOffer: asks the primitive for an offer (outcome given by
offerResult); on success it emits the success event with the offer and
proceeds to setLocalDescription, on failure it emits the failure event with
the error payload and stops. -/
def createOffer (T : SDPTransforms) (bandwidth : Option Nat) (st : PeerState)
    (offerResult : Except String SessionDesc) (setLocalResult : Except String Unit) :
    PeerState × List PAct :=
  match offerResult with
  | Except.error e => (st, [PAct.callCreateOffer, PAct.emit "peer:local_offer:failure" (PPayload.err e)])
  | Except.ok offer =>
    let r := setLocalDescription T bandwidth st offer setLocalResult
    (r.1, PAct.callCreateOffer :: PAct.emit "peer:local_offer:success" (PPayload.desc offer) :: r.2)

/-- Peer createAnswer: the same shape as createOffer with the answer
events. -/
def createAnswer (T : SDPTransforms) (bandwidth : Option Nat) (st : PeerState)
    (answerResult : Except String SessionDesc) (setLocalResult : Except String Unit) :
    PeerState × List PAct :=
  match answerResult with
  | Except.error e => (st, [PAct.callCreateAnswer, PAct.emit "peer:local_answer:failure" (PPayload.err e)])
  | Except.ok answer =>
    let r := setLocalDescription T bandwidth st answer setLocalResult
    (r.1, PAct.callCreateAnswer :: PAct.emit "peer:local_answer:success" (PPayload.desc answer) :: r.2)

/-- Peer setRemoteDescription: wraps the received description in an
RTCSessionDescription (identity on type and sdp, no transform) and hands it
to the primitive; on success it emits the success event and records
have-remote-answer for answers, on failure it emits the error event with
the error payload and leaves the state unchanged. -/
def setRemoteDescription (st : PeerState) (remoteSdp : SessionDesc)
    (primResult : Except String Unit) : PeerState × List PAct :=
  let remoteDescription := remoteSdp
  match primResult with
  | Except.ok _ =>
    let st' :=
      if remoteDescription.type == "answer" then
        { st with newSignalingState := "have-remote-answer" }
      else st
    (st', [PAct.callSetRemote remoteDescription,
      PAct.emit "peer:remote_description:success" PPayload.nonePayload])
  | Except.error e =>
    (st, [PAct.callSetRemote remoteDescription,
      PAct.emit "peer:remote_description:error" (PPayload.err e)])

/-- Peer onIceCandidate: forwards the received candidate to
ICE.addCandidate on the bound connection. -/
def onIceCandidate (st : PeerState) (c : String) : PeerState :=
  { st with ice := ICE.addCandidate st.ice c }

/-- JavaScript property assignment on a string-keyed object map: overwrite
the existing key or append a new one, keeping keys unique. -/
def jsAssocSet (l : List (String × Chan)) (k : String) (v : Chan) : List (String × Chan) :=
  if l.any (fun p => p.1 == k) then
    l.map fun p => if p.1 == k then (k, v) else p
  else l ++ [(k, v)]

/-- Peer onDataChannel: wraps the received channel in a DataChannel (label
preserved) and classifies it by label, the main label going to the
singleton main slot and every other label into the transfers mapping keyed
by the label. -/
def onDataChannel (st : PeerState) (received : Chan) : PeerState :=
  let channel := received
  if channel.label == "main" then
    { st with datachannels := { st.datachannels with main := some channel } }
  else
    { st with
      datachannels :=
        { st.datachannels with
          transfers := jsAssocSet st.datachannels.transfers channel.label channel } }

/-- Peer createDataChannel: with an empty transferId it creates the main
channel; otherwise the source assigns com.datachannels[transferId], which
for the key main overwrites the main slot and for any other key creates a
stray own property of the datachannels object beside main and transfers
(the key transfers, which would shadow the mapping itself, is modeled as a
stray property as well; either way the channel does not enter the transfers
mapping). -/
def createDataChannel (st : PeerState) (transferId : Option String) : PeerState :=
  let isEmptyId := transferId = none ∨ transferId = some ""
  if isEmptyId then
    let ch : Chan := { label := (st.id.getD "") }
    { st with datachannels := { st.datachannels with main := some ch } }
  else
    let tid := transferId.getD ""
    let ch : Chan := { label := tid }
    if tid == "main" then
      { st with datachannels := { st.datachannels with main := some ch } }
    else
      { st with
        datachannels :=
          { st.datachannels with direct := jsAssocSet st.datachannels.direct tid ch } }

end Peer

namespace Skylink

/-- A JavaScript value as it flows through the user-data surface:
undefined, null, a string, a JSON object (its fields kept as string pairs),
or a number. -/
inductive JsVal
  | undef
  | nullv
  | str (s : String)
  | obj (fields : List (String × String))
  | num (n : Int)
deriving DecidableEq, Repr

/-- JavaScript truthiness of a JsVal. -/
def JsVal.truthy : JsVal → Bool
  | JsVal.undef => false
  | JsVal.nullv => false
  | JsVal.str s => !(s == "")
  | JsVal.obj _ => true
  | JsVal.num n => !(n == 0)

/-- Whether typeof yields string. -/
def JsVal.isString : JsVal → Bool
  | JsVal.str _ => true
  | _ => false

/-- The string a JsVal coerces to when used as a property key. -/
def JsVal.asKey : JsVal → String
  | JsVal.undef => "undefined"
  | JsVal.nullv => "null"
  | JsVal.str s => s
  | JsVal.obj _ => "[object Object]"
  | JsVal.num n => toString n

/-- A stored peer information entry in _peerInformations; only the
userData field is examined by the functions under study, the remaining
payload is kept as one extra JsVal field. -/
structure PeerInfo where
  userData : JsVal := JsVal.str ""
  rest : JsVal := JsVal.obj []
deriving DecidableEq, Repr

/-- The _user credentials record; sid is the self session socket id. -/
structure UserCred where
  sid : String
deriving DecidableEq, Repr

/-- The _room record; only its id is read by setUserData. -/
structure Room where
  id : String
deriving DecidableEq, Repr

/-- The per-kind stream settings record read by getPeerInfo; audio, video
and bandwidth keep their JavaScript looseness as JsVal. -/
structure StreamSettings where
  audio : JsVal := JsVal.undef
  video : JsVal := JsVal.undef
  bandwidth : JsVal := JsVal.undef
deriving DecidableEq, Repr

/-- The _mediaStreamsStatus record. -/
structure MediaStatus where
  audioMuted : Bool := true
  videoMuted : Bool := true
deriving DecidableEq, Repr

/-- The Skylink state slice used by the user-data surface. -/
structure SkState where
  userData : JsVal := JsVal.str ""
  user : Option UserCred := none
  room : Option Room := none
  inRoom : Bool := false
  peerInformations : List (String × PeerInfo) := []
  mediaStreamsStatus : MediaStatus := {}
  mediaScreen : Bool := false
  screenSharingStreamSettings : StreamSettings := {}
  streamSettings : StreamSettings := {}
  agentName : String := "chrome"
  agentVersion : Nat := 0
  selectedRoom : JsVal := JsVal.nullv
deriving DecidableEq, Repr

/-- Property lookup on _peerInformations with the JavaScript key coercion;
none models undefined. -/
def lookupPeer (st : SkState) (peerId : JsVal) : Option PeerInfo :=
  (st.peerInformations.find? fun p => p.1 == peerId.asKey).map Prod.snd

/-- Skylink._parseUserData: stores the provided user data, or the empty
string when it is falsy. -/
def parseUserData (st : SkState) (d : JsVal) : SkState :=
  { st with userData := if d.truthy then d else JsVal.str "" }

/-- The self peer information object built by the else branch of
getPeerInfo: screen-sharing settings (with the bandwidth of the stream
settings and the video field replaced by a screenshare marker when video is
truthy) when a screen stream is active, otherwise the stream settings;
audio and video muted flags forced when the respective setting is falsy;
userData defaulted to the empty string when falsy; browser agent fields and
the selected room. -/
structure SelfPeerInfo where
  userData : JsVal
  settings : StreamSettings
  mediaStatus : MediaStatus
  agentName : String
  agentVersion : Nat
  room : JsVal
deriving DecidableEq, Repr

/-- Builds the self peer information from the state, following the else
branch of getPeerInfo line by line. -/
def selfPeerInfo (st : SkState) : SelfPeerInfo :=
  let mediaStatus := st.mediaStreamsStatus
  let mediaSettings :=
    if st.mediaScreen then
      let m := st.screenSharingStreamSettings
      let m := { m with bandwidth := st.streamSettings.bandwidth }
      if m.video.truthy then { m with video := JsVal.obj [("screenshare", "true")] } else m
    else st.streamSettings
  let mediaStatus :=
    if mediaSettings.audio.truthy then mediaStatus else { mediaStatus with audioMuted := true }
  let mediaStatus :=
    if mediaSettings.video.truthy then mediaStatus else { mediaStatus with videoMuted := true }
  { userData := if st.userData.truthy then st.userData else JsVal.str ""
    settings := mediaSettings
    mediaStatus := mediaStatus
    agentName := st.agentName
    agentVersion := st.agentVersion
    room := st.selectedRoom }

/-- The result of getPeerInfo: null, a stored peer information entry, or
the self peer information. -/
inductive GetPIRes
  | nullRes
  | stored (p : PeerInfo)
  | self (s : SelfPeerInfo)
deriving DecidableEq, Repr

/-- Skylink.getPeerInfo: isNotSelf holds when a user with a truthy sid
exists and the argument differs from it by strict comparison; a string
argument that is not self is looked up in _peerInformations, yielding the
entry or null; every other argument yields the self peer information. -/
def getPeerInfo (st : SkState) (peerId : JsVal) : GetPIRes :=
  let isNotSelf :=
    match st.user with
    | some u => if u.sid == "" then false else decide (peerId ≠ JsVal.str u.sid)
    | none => false
  if peerId.isString && isNotSelf then
    match lookupPeer st peerId with
    | some info => GetPIRes.stored info
    | none => GetPIRes.nullRes
  else
    GetPIRes.self (selfPeerInfo st)

/-- The result of getUserData: null or a JavaScript value. -/
inductive GetUDRes
  | nullRes
  | val (v : JsVal)
deriving DecidableEq, Repr

/-- A JavaScript computation outcome: a value, or a thrown TypeError from
dereferencing a missing _user. -/
inductive JResult (α : Type)
  | ok (a : α)
  | thrown
deriving DecidableEq, Repr

/-- Skylink.getUserData: a truthy argument is compared against _user.sid
(throwing when _user is null); when it differs, the stored entry userData
is returned, or null when there is no entry; a falsy argument or the self
sid returns the self _userData. -/
def getUserData (st : SkState) (peerId : JsVal) : JResult GetUDRes :=
  if peerId.truthy then
    match st.user with
    | none => JResult.thrown
    | some u =>
      if peerId = JsVal.str u.sid then JResult.ok (GetUDRes.val st.userData)
      else
        match lookupPeer st peerId with
        | some info => JResult.ok (GetUDRes.val info.userData)
        | none => JResult.ok GetUDRes.nullRes
  else JResult.ok (GetUDRes.val st.userData)

/-- The UPDATE_USER signaling message built by setUserData. The
_SIG_MESSAGE_TYPE table is outside src; the wire value of UPDATE_USER is
taken to be the updateUserEvent entry of the transport typesToQueue list. -/
structure OutMsg where
  type : String
  mid : String
  rid : String
  userData : JsVal
deriving DecidableEq, Repr

/-- The wire type string of the UPDATE_USER message. -/
def UPDATE_USER : String := "updateUserEvent"

/-- The peerUpdated event triggered by setUserData. -/
structure PeerUpdatedEv where
  sid : String
  info : GetPIRes
  isSelf : Bool
deriving DecidableEq, Repr

/-- The outward effect of setUserData: nothing when self is not in the
room, an UPDATE_USER message plus a peerUpdated event when in the room, or
a thrown TypeError when in the room without user or room records. -/
inductive SetUDOut
  | notInRoom
  | sent (msg : OutMsg) (ev : PeerUpdatedEv)
  | thrown
deriving DecidableEq, Repr

/-- Skylink.setUserData: first parses and stores the user data
unconditionally, then, when self is in the room, sends the UPDATE_USER
message carrying the parsed data with the self sid and room id and triggers
peerUpdated with the self peer information; when not in the room it only
logs a warning and changes nothing else. -/
def setUserData (st : SkState) (d : JsVal) : SkState × SetUDOut :=
  let st1 := parseUserData st d
  if st1.inRoom then
    match st1.user, st1.room with
    | some u, some r =>
      (st1,
        SetUDOut.sent
          { type := UPDATE_USER, mid := u.sid, rid := r.id, userData := st1.userData }
          { sid := u.sid, info := getPeerInfo st1 JsVal.undef, isSelf := true })
    | _, _ => (st1, SetUDOut.thrown)
  else (st1, SetUDOut.notInRoom)

end Skylink

namespace Peer

/-- Concrete transforms used to instantiate the SDP module in closed
statements; the pipeline claims are independent of the transform bodies. -/
def idTransforms : SDPTransforms :=
  { removeH264Support := id, addStereo := id, setBitrate := fun l _ => l }

/-- The number of calls into the peer-connection primitive contained in an
action list. -/
def primCallCount (acts : List PAct) : Nat :=
  (acts.filter fun a =>
    match a with
    | PAct.callCreateOffer => true
    | PAct.callCreateAnswer => true
    | PAct.callSetLocal _ => true
    | PAct.callSetRemote _ => true
    | _ => false).length

end Peer

namespace SkylinkSocket

/-- The base transport state of a reconnection campaign over the https
port list ps: fresh connection record, list ps installed for https. -/
def campBase (ps : List Nat) : SocketState :=
  { ports := { https := ps, http := [] }, protocol := Protocol.https }

/-- The path string built by connect for port p in the campaign state. -/
def campPath (p : Nat) : String :=
  protocolString Protocol.https ++ "//" ++ "signaling.temasys.com.sg" ++ ":" ++ toString p

/-- The transport state in the middle of a reconnection campaign: socket
constructed, not connected, not dead, the connection cursor at the given
transport kind, fallback flag and port. -/
def campState (ps : List Nat) (tr : Transport) (fb : Bool) (p : Nat) : SocketState :=
  { campBase ps with
    conn := { path := some (campPath p), port := p, transport := tr, transportFallback := fb }
    socketInit := true }

/-- A connected transport with an initialized socket and default messaging
state, used for the batching scenarios. -/
def freshSock : SocketState :=
  { socketInit := true, connected := true }

/-- A transport that has exhausted all ports and transports: dead is set,
the cursor sits at the last port of the fallback transport, the socket
object exists but is not connected. -/
def deadSock : SocketState :=
  { campState [443, 3443] Transport.polling true 3443 with dead := true }

/-- Twenty must-queue messages for the batching scenario. -/
def burst20 : List Msg :=
  (List.range 20).map fun i => { type := "stream", mid := "m", rid := "r", body := i }

end SkylinkSocket

namespace Skylink

/-- A concrete state for the user-data getters: a user with session id abc,
stored user data bob, no stored peer informations. -/
def c10State : SkState :=
  { userData := JsVal.str "bob", user := some { sid := "abc" } }

/-- A concrete in-room state for setUserData. -/
def c9State : SkState :=
  { userData := JsVal.str "bob", user := some { sid := "abc" },
    room := some { id := "r1" }, inRoom := true }

end Skylink

namespace ICE

/-- Folding addCandidate while the remote description is not yet applied
only appends to the buffer, in arrival order. -/
theorem foldl_addCandidate_buffering {C : Type} (cs : List C) (st : IceState C)
    (h : st.remoteApplied = false) :
    cs.foldl addCandidate st = { st with queueCandidate := st.queueCandidate ++ cs } := by
  induction cs generalizing st with
  | nil => simp
  | cons c rest ih =>
    simp only [List.foldl_cons, addCandidate, h]
    rw [if_neg (by simp [h])]
    rw [ih _ (by simp [h])]
    simp

/-- Folding addCandidate after the remote description is applied appends
each candidate to the applied list immediately, in arrival order. -/
theorem foldl_addCandidate_applying {C : Type} (cs : List C) (st : IceState C)
    (h : st.remoteApplied = true) :
    cs.foldl addCandidate st = { st with applied := st.applied ++ cs } := by
  induction cs generalizing st with
  | nil => simp
  | cons c rest ih =>
    simp only [List.foldl_cons, addCandidate, h]
    rw [if_pos (by simp [h])]
    rw [ih _ (by simp [h])]
    simp

end ICE

namespace Peer

/-- onIceCandidate only forwards to ICE.addCandidate on the ice slot. -/
theorem foldl_onIceCandidate_ice (cs : List String) (st : PeerState) :
    (cs.foldl onIceCandidate st).ice = cs.foldl ICE.addCandidate st.ice := by
  induction cs generalizing st with
  | nil => rfl
  | cons c rest ih => simp only [List.foldl_cons, onIceCandidate, ih]

end Peer

/-- C7: candidates received before the remote description is applied are
buffered in arrival order with none applied; after the drain that follows
the successful remote-description application, all of them are applied to
the primitive exactly once in arrival order, followed in order by any
candidates received afterwards, and the buffer is empty: no candidate is
dropped across the buffering and draining boundary. -/
theorem c7_candidate_ordering (cs later : List String) (st0 : Peer.PeerState)
    (hice : st0.ice = {}) :
    (cs.foldl Peer.onIceCandidate st0).ice.applied = []
    ∧ (cs.foldl Peer.onIceCandidate st0).ice.queueCandidate = cs
    ∧ (later.foldl Peer.onIceCandidate
        { cs.foldl Peer.onIceCandidate st0 with
          ice := ICE.drainOnRemoteApplied (cs.foldl Peer.onIceCandidate st0).ice }).ice.applied
        = cs ++ later
    ∧ (later.foldl Peer.onIceCandidate
        { cs.foldl Peer.onIceCandidate st0 with
          ice := ICE.drainOnRemoteApplied (cs.foldl Peer.onIceCandidate st0).ice }).ice.queueCandidate
        = [] := by
  have hbuf : (cs.foldl Peer.onIceCandidate st0).ice
      = { ({} : ICE.IceState String) with queueCandidate := cs } := by
    rw [Peer.foldl_onIceCandidate_ice, hice, ICE.foldl_addCandidate_buffering _ _ rfl]
    simp
  have happ : (later.foldl Peer.onIceCandidate
      { cs.foldl Peer.onIceCandidate st0 with
        ice := ICE.drainOnRemoteApplied (cs.foldl Peer.onIceCandidate st0).ice }).ice
      = { remoteApplied := true, queueCandidate := [], applied := cs ++ later } := by
    rw [Peer.foldl_onIceCandidate_ice]
    simp only [hbuf, ICE.drainOnRemoteApplied]
    rw [ICE.foldl_addCandidate_applying _ _ rfl]
    simp
  refine ⟨?_, ?_, ?_, ?_⟩
  · rw [hbuf]
  · rw [hbuf]
  · rw [happ]
  · rw [happ]

/-- C7 witness: two candidates buffered before the remote description and
one received after are all applied exactly once in arrival order. -/
theorem c7_candidate_ordering_witness :
    (({} : Peer.PeerState).ice = {})
    ∧ ((["a", "b"].foldl Peer.onIceCandidate ({} : Peer.PeerState)).ice.queueCandidate = ["a", "b"])
    ∧ ((["c"].foldl Peer.onIceCandidate
        { ["a", "b"].foldl Peer.onIceCandidate ({} : Peer.PeerState) with
          ice := ICE.drainOnRemoteApplied
            (["a", "b"].foldl Peer.onIceCandidate ({} : Peer.PeerState)).ice }).ice.applied
        = ["a", "b", "c"]) :=
  ⟨rfl, (c7_candidate_ordering ["a", "b"] ["c"] {} rfl).2.1,
    (c7_candidate_ordering ["a", "b"] ["c"] {} rfl).2.2.1⟩

/-- C5 counterexample: when offer generation fails at the primitive, the
session reports the failure but its readyState stays new; it does not
transition to failed (no assignment to readyState exists anywhere in the
source after construction). -/
theorem c5_counterexample :
    (Peer.createOffer Peer.idTransforms none {} (Except.error "offer-failed")
        (Except.ok ())).1.readyState = "new"
    ∧ ¬ (Peer.createOffer Peer.idTransforms none {} (Except.error "offer-failed")
        (Except.ok ())).1.readyState = "failed"
    ∧ (Peer.createOffer Peer.idTransforms none {} (Except.error "offer-failed")
        (Except.ok ())).2
      = [Peer.PAct.callCreateOffer,
         Peer.PAct.emit "peer:local_offer:failure" (Peer.PPayload.err "offer-failed")] := by
  refine ⟨rfl, by decide, rfl⟩

/-- C5 (amended): offer and answer generation failures and local and
remote description application failures are each reported to the
orchestrator through a listener event carrying the error payload, make
exactly one call into the peer-connection primitive (no automatic retry),
and leave the whole session state, in particular its readyState, unchanged;
the session does not transition to failed. -/
theorem c5_failure_reporting (T : Peer.SDPTransforms) (bw : Option Nat)
    (st : Peer.PeerState) (d : Peer.SessionDesc) (e : String) :
    Peer.createOffer T bw st (Except.error e) (Except.ok ())
      = (st, [Peer.PAct.callCreateOffer,
          Peer.PAct.emit "peer:local_offer:failure" (Peer.PPayload.err e)])
    ∧ Peer.createAnswer T bw st (Except.error e) (Except.ok ())
      = (st, [Peer.PAct.callCreateAnswer,
          Peer.PAct.emit "peer:local_answer:failure" (Peer.PPayload.err e)])
    ∧ Peer.setLocalDescription T bw st d (Except.error e)
      = (st, [Peer.PAct.callSetLocal { d with sdp := Peer.transformLocalSdp T bw st d.sdp },
          Peer.PAct.emit "peer:local_description:error" (Peer.PPayload.err e)])
    ∧ Peer.setRemoteDescription st d (Except.error e)
      = (st, [Peer.PAct.callSetRemote d,
          Peer.PAct.emit "peer:remote_description:error" (Peer.PPayload.err e)])
    ∧ Peer.primCallCount (Peer.createOffer T bw st (Except.error e) (Except.ok ())).2 = 1
    ∧ Peer.primCallCount (Peer.setLocalDescription T bw st d (Except.error e)).2 = 1
    ∧ Peer.primCallCount (Peer.setRemoteDescription st d (Except.error e)).2 = 1 :=
  ⟨rfl, rfl, rfl, rfl, rfl, rfl, rfl⟩

/-- C6: setLocalDescription rewrites the locally generated sdp by exactly
the three transforms in order, stripping the H264 lines first, then
injecting stereo only when the local audio configuration requires it, then
injecting bitrate attributes only when a sending bandwidth cap is
configured, before handing the description to the primitive; while
setRemoteDescription hands the received description to the primitive
verbatim, with no transform. -/
theorem c6_sdp_transform_pipeline (T : Peer.SDPTransforms) (bw : Option Nat)
    (st : Peer.PeerState) (d : Peer.SessionDesc) (res : Except String Unit) :
    (Peer.setLocalDescription T bw st d res).2.head?
      = some (Peer.PAct.callSetLocal
          { d with
            sdp := (String.intercalate Peer.crlf
              ((match bw with
                | some b => fun l => T.setBitrate l b
                | none => id)
               ((if Peer.stereoEnabled st then T.addStereo else id)
                (T.removeH264Support (d.sdp.splitOn Peer.crlf))))) })
    ∧ (Peer.setRemoteDescription st d res).2.head? = some (Peer.PAct.callSetRemote d) := by
  constructor
  · cases res <;> cases bw <;> cases h : Peer.stereoEnabled st <;>
      simp [Peer.setLocalDescription, Peer.transformLocalSdp, h]
  · cases res <;> rfl

/-- C8: the code contradicts its own datachannels documentation and its
inbound handler: createDataChannel with the transfer identifier transfer1
stores the new channel as a stray own property of the datachannels object,
leaving the transfers mapping empty and main unset, whereas an inbound
channel with the same label is stored in the transfers mapping and an
inbound channel labeled main becomes the singleton main channel. -/
theorem c8_create_data_channel_misplaced :
    (Peer.createDataChannel { id := some "p1" } (some "transfer1")).datachannels.transfers = []
    ∧ (Peer.createDataChannel { id := some "p1" } (some "transfer1")).datachannels.direct
        = [("transfer1", { label := "transfer1" })]
    ∧ (Peer.createDataChannel { id := some "p1" } (some "transfer1")).datachannels.main = none
    ∧ (Peer.onDataChannel { id := some "p1" } { label := "transfer1" }).datachannels.transfers
        = [("transfer1", { label := "transfer1" })]
    ∧ (Peer.onDataChannel { id := some "p1" } { label := "main" }).datachannels.main
        = some { label := "main" } := by
  refine ⟨by decide, by decide, by decide, by decide, by decide⟩

/-- C9: setUserData always stores the parsed user data (the provided value,
or the empty string when it is falsy) regardless of room membership; when
self is in the room it additionally sends exactly the UPDATE_USER message
carrying the self sid, the room id and the parsed data, and triggers
peerUpdated with the self peer information of the updated state; when self
is not in the room, nothing besides the local user-data field changes and
no message or event is produced. -/
theorem c9_set_user_data (st : Skylink.SkState) (d : Skylink.JsVal)
    (u : Skylink.UserCred) (r : Skylink.Room)
    (hu : st.user = some u) (hr : st.room = some r) :
    (Skylink.setUserData st d).1.userData
      = (if d.truthy then d else Skylink.JsVal.str "")
    ∧ (st.inRoom = true →
        (Skylink.setUserData st d).2 =
          Skylink.SetUDOut.sent
            { type := Skylink.UPDATE_USER, mid := u.sid, rid := r.id,
              userData := if d.truthy then d else Skylink.JsVal.str "" }
            { sid := u.sid,
              info := Skylink.GetPIRes.self (Skylink.selfPeerInfo (Skylink.parseUserData st d)),
              isSelf := true })
    ∧ (st.inRoom = false →
        (Skylink.setUserData st d).2 = Skylink.SetUDOut.notInRoom
        ∧ (Skylink.setUserData st d).1
            = { st with userData := if d.truthy then d else Skylink.JsVal.str "" }) := by
  have hgpi : Skylink.getPeerInfo (Skylink.parseUserData st d) Skylink.JsVal.undef
      = Skylink.GetPIRes.self (Skylink.selfPeerInfo (Skylink.parseUserData st d)) := by
    simp [Skylink.getPeerInfo, Skylink.JsVal.isString]
  refine ⟨?_, ?_, ?_⟩
  · unfold Skylink.setUserData
    cases hR : st.inRoom <;>
      simp [Skylink.parseUserData, hR, hu, hr]
  · intro hR
    unfold Skylink.setUserData
    simp [Skylink.parseUserData, hR, hu, hr, hgpi]
    rfl
  · intro hR
    unfold Skylink.setUserData
    simp [Skylink.parseUserData, hR, hu, hr]

/-- C9 witness: in a concrete in-room state, setUserData stores the new
value locally. -/
theorem c9_set_user_data_witness :
    Skylink.c9State.user = some { sid := "abc" }
    ∧ Skylink.c9State.room = some { id := "r1" }
    ∧ (Skylink.setUserData Skylink.c9State (Skylink.JsVal.str "carol")).1.userData
        = (if (Skylink.JsVal.str "carol").truthy then Skylink.JsVal.str "carol"
           else Skylink.JsVal.str "") :=
  ⟨rfl, rfl,
    (c9_set_user_data Skylink.c9State (Skylink.JsVal.str "carol")
      { sid := "abc" } { id := "r1" } rfl rfl).1⟩

/-- C10 counterexample: with session id abc, stored user data bob and no
stored peer informations, the empty string is a string peerId that differs
from the session id and has no entry, yet getUserData returns the self
user data bob instead of null, because the empty string is falsy. -/
theorem c10_counterexample :
    (Skylink.JsVal.str "").isString = true
    ∧ ¬ ("" : String) = "abc"
    ∧ Skylink.lookupPeer Skylink.c10State (Skylink.JsVal.str "") = none
    ∧ Skylink.getUserData Skylink.c10State (Skylink.JsVal.str "")
        = Skylink.JResult.ok (Skylink.GetUDRes.val (Skylink.JsVal.str "bob")) := by
  refine ⟨rfl, by decide, rfl, rfl⟩

/-- C10 (amended): for every nonempty string peerId differing from the
self session id and with no stored entry, getPeerInfo and getUserData
return null rather than self information; getPeerInfo also returns null
for the empty string, but getUserData falls back to the self user data for
the empty string because any falsy argument selects the self branch;
getPeerInfo returns the self information exactly for non-string arguments
and for the self session id, and getUserData returns the self user data
for the self session id. -/
theorem c10_lookup_fallback (st : Skylink.SkState) (u : Skylink.UserCred) (s : String)
    (hu : st.user = some u) (hsid : u.sid ≠ "") (hne : s ≠ u.sid)
    (hmiss : Skylink.lookupPeer st (Skylink.JsVal.str s) = none) :
    Skylink.getPeerInfo st (Skylink.JsVal.str s) = Skylink.GetPIRes.nullRes
    ∧ (s ≠ "" →
        Skylink.getUserData st (Skylink.JsVal.str s)
          = Skylink.JResult.ok Skylink.GetUDRes.nullRes)
    ∧ (s = "" →
        Skylink.getUserData st (Skylink.JsVal.str s)
          = Skylink.JResult.ok (Skylink.GetUDRes.val st.userData))
    ∧ (∀ arg : Skylink.JsVal, arg.isString = false →
        Skylink.getPeerInfo st arg = Skylink.GetPIRes.self (Skylink.selfPeerInfo st))
    ∧ Skylink.getPeerInfo st (Skylink.JsVal.str u.sid)
        = Skylink.GetPIRes.self (Skylink.selfPeerInfo st)
    ∧ Skylink.getUserData st (Skylink.JsVal.str u.sid)
        = Skylink.JResult.ok (Skylink.GetUDRes.val st.userData) := by
  refine ⟨?_, ?_, ?_, ?_, ?_, ?_⟩
  · simp [Skylink.getPeerInfo, Skylink.JsVal.isString, hu, hsid, hne, hmiss]
  · intro hs
    simp [Skylink.getUserData, Skylink.JsVal.truthy, hs, hu, hne, hmiss]
  · intro hs
    subst hs
    simp [Skylink.getUserData, Skylink.JsVal.truthy]
  · intro arg harg
    simp [Skylink.getPeerInfo, harg]
  · simp [Skylink.getPeerInfo, Skylink.JsVal.isString, hu]
  · simp [Skylink.getUserData, Skylink.JsVal.truthy, hsid, hu]

/-- C10 witness: a concrete unknown nonempty string peerId yields null
from both getters. -/
theorem c10_lookup_fallback_witness :
    Skylink.c10State.user = some { sid := "abc" }
    ∧ ¬ ("zzz" : String) = ""
    ∧ ¬ ("zzz" : String) = "abc"
    ∧ Skylink.getPeerInfo Skylink.c10State (Skylink.JsVal.str "zzz")
        = Skylink.GetPIRes.nullRes
    ∧ Skylink.getUserData Skylink.c10State (Skylink.JsVal.str "zzz")
        = Skylink.JResult.ok Skylink.GetUDRes.nullRes :=
  ⟨rfl, by decide, by decide,
    (c10_lookup_fallback Skylink.c10State { sid := "abc" } "zzz" rfl (by decide)
      (by decide) rfl).1,
    (c10_lookup_fallback Skylink.c10State { sid := "abc" } "zzz" rfl (by decide)
      (by decide) rfl).2.1 (by decide)⟩

namespace SkylinkSocket

/-- The send callback never transmits while the socket is not connected:
it drops the payload with a logged warning, the local rejection. -/
theorem sendFn_not_sent (st : SocketState) (w : Wire) (h : st.connected = false) :
    (sendFn st w).disp ≠ Disposition.sent := by
  unfold sendFn
  by_cases hs : st.socketInit = false <;> simp [hs, h]

end SkylinkSocket

/-- C1 counterexample: in a state where dead is true, invoking connect is
not a no-op: it unconditionally clears dead and issues a fresh connection
attempt, contradicting the claim that connect never clears dead and that
no further connection attempts are issued. -/
theorem c1_counterexample :
    SkylinkSocket.deadSock.dead = true
    ∧ (SkylinkSocket.connect SkylinkSocket.deadSock).1.dead = false
    ∧ SkylinkSocket.attemptsOf (SkylinkSocket.connect SkylinkSocket.deadSock).2
        = [(SkylinkSocket.Transport.polling, 3443)] := by
  refine ⟨rfl, rfl, rfl⟩

/-- C1 (amended): once dead is true, the transport itself issues no
further attempts and rejects sends locally: send never changes dead, every
send and every drain output while disconnected is locally rejected rather
than transmitted, and the terminal reconnect step (fallback transport at
the last port) leaves the state unchanged, re-emitting only the terminal
error and no connection attempt; however an explicit external connect()
call is not a no-op: it always clears dead and issues a new attempt. -/
theorem c1_dead_terminality (st : SkylinkSocket.SocketState) (m : SkylinkSocket.Msg)
    (t : Nat) (hdead : st.dead = true) :
    (SkylinkSocket.send st m t).1.dead = true
    ∧ (st.connected = false →
        (∀ o ∈ (SkylinkSocket.send st m t).2, o.disp ≠ SkylinkSocket.Disposition.sent)
        ∧ ∀ t2 : Nat, ∀ o ∈ (SkylinkSocket.delayFn st t2).2,
            o.disp ≠ SkylinkSocket.Disposition.sent)
    ∧ (st.conn.transport = SkylinkSocket.Transport.polling →
        st.ports.get st.protocol ≠ [] →
        SkylinkSocket.jsIndexOf (st.ports.get st.protocol) st.conn.port
          = ((st.ports.get st.protocol).length : Int) - 1 →
        SkylinkSocket.reconnectStep st
          = (st, [SkylinkSocket.Ev.connectError (-3) SkylinkSocket.Transport.polling]))
    ∧ (SkylinkSocket.connect st).1.dead = false := by
  refine ⟨?_, ?_, ?_, rfl⟩
  · by_cases hc : (t - st.messaging.timestamp.getD 0 < st.messaging.interval
        ∧ m.type ∈ SkylinkSocket.typesToQueue) <;>
      simp [SkylinkSocket.send, hc, hdead]
  · intro hconn
    constructor
    · intro o ho
      by_cases hc : (t - st.messaging.timestamp.getD 0 < st.messaging.interval
          ∧ m.type ∈ SkylinkSocket.typesToQueue)
      · simp [SkylinkSocket.send, hc] at ho
      · simp [SkylinkSocket.send, hc] at ho
        rw [ho]
        exact SkylinkSocket.sendFn_not_sent st _ hconn
    · intro t2 o ho
      by_cases h1 : st.messaging.queue.length > 0
      · by_cases h2 : st.messaging.queue.length < st.messaging.throughput <;>
          · simp [SkylinkSocket.delayFn, h1, h2] at ho
            rw [ho]
            exact SkylinkSocket.sendFn_not_sent st _ hconn
      · simp [SkylinkSocket.delayFn, h1] at ho
  · intro htr hne hidx
    have hlen : 1 ≤ (st.ports.get st.protocol).length := List.length_pos.mpr hne
    have h1 : ¬ ((((st.ports.get st.protocol).length : Int) - 1) = -1) := by omega
    have h2 : ¬ ((((st.ports.get st.protocol).length : Int) - 1)
        < ((st.ports.get st.protocol).length : Int) - 1) := by omega
    have hst : { st with dead := true } = st := by
      obtain ⟨sv, tm, po, pr, co, de, si, cn, mg⟩ := st
      simp only at hdead
      simp [hdead]
    unfold SkylinkSocket.reconnectStep
    simp [hidx, h1, h2, htr, hst]

/-- C1 witness: in the concrete exhausted dead state, a send leaves dead
set and its output is locally rejected. -/
theorem c1_dead_terminality_witness :
    SkylinkSocket.deadSock.dead = true
    ∧ (SkylinkSocket.send SkylinkSocket.deadSock
        { type := "updateUserEvent", mid := "m", rid := "r" } 2000).1.dead = true :=
  ⟨rfl, (c1_dead_terminality SkylinkSocket.deadSock
    { type := "updateUserEvent", mid := "m", rid := "r" } 2000 rfl).1⟩


namespace SkylinkSocket

/-- The send callback never alters the wire payload; it only records the
disposition. -/
theorem sendFn_wire (st : SocketState) (w : Wire) : (sendFn st w).wire = w := by
  unfold sendFn
  by_cases hs : st.socketInit = false <;> by_cases hc : st.connected = false <;> simp [hs, hc]

/-- Unfolding equation of runSock on a cons. -/
theorem runSock_cons (st : SocketState) (e : SockEv) (rest : List SockEv) :
    runSock st (e :: rest)
      = ((runSock (stepSock st e).1 rest).1,
         (stepSock st e).2 ++ (runSock (stepSock st e).1 rest).2) := rfl

/-- The submissions of a cons split into the head contribution and the
tail. -/
theorem submittedOf_cons (e : SockEv) (rest : List SockEv) :
    submittedOf (e :: rest) = submittedOf [e] ++ submittedOf rest := by
  cases e <;> simp [submittedOf]

/-- One step conserves messages: the payload of the outputs it produces
together with the queue afterwards is a permutation of the queue before
plus the message it submitted, if any. -/
theorem stepSock_conservation (st : SocketState) (e : SockEv) :
    (((stepSock st e).2.flatMap fun o => o.wire.payload)
        ++ (stepSock st e).1.messaging.queue).Perm
      (st.messaging.queue ++ submittedOf [e]) := by
  cases e with
  | submit m t =>
    by_cases hc : (t - st.messaging.timestamp.getD 0 < st.messaging.interval
        ∧ m.type ∈ typesToQueue)
    · simp [stepSock, send, hc, submittedOf]
    · simp [stepSock, send, hc, submittedOf, sendFn_wire, Wire.payload]
      simpa using (@List.perm_middle Msg m st.messaging.queue []).symm
  | fire t =>
    by_cases ht : st.messaging.timer = some t
    · by_cases h1 : st.messaging.queue.length > 0
      · by_cases h2 : st.messaging.queue.length < st.messaging.throughput
        · simp [stepSock, ht, delayFn, h1, h2, submittedOf, sendFn_wire, Wire.payload]
        · simp [stepSock, ht, delayFn, h1, h2, submittedOf, sendFn_wire, Wire.payload]
      · simp [stepSock, ht, delayFn, h1, submittedOf]
    · simp [stepSock, ht, submittedOf]

/-- Conservation of messages through the send path: the messages contained
in the outputs produced so far, together with the messages still queued,
are a permutation of the initially queued messages plus every submitted
message; nothing is lost by queueing, draining or immediate sending. -/
theorem runSock_payload_perm (evs : List SockEv) (st : SocketState) :
    (((runSock st evs).2.flatMap fun o => o.wire.payload)
        ++ (runSock st evs).1.messaging.queue).Perm
      (st.messaging.queue ++ submittedOf evs) := by
  induction evs generalizing st with
  | nil => simp [runSock, submittedOf]
  | cons e rest ih =>
    rw [runSock_cons, submittedOf_cons]
    have hstep := stepSock_conservation st e
    have hrest := ih (stepSock st e).1
    have h1 : (((stepSock st e).2 ++ (runSock (stepSock st e).1 rest).2).flatMap
          fun o => o.wire.payload)
        ++ (runSock (stepSock st e).1 rest).1.messaging.queue
      = ((stepSock st e).2.flatMap fun o => o.wire.payload)
        ++ (((runSock (stepSock st e).1 rest).2.flatMap fun o => o.wire.payload)
          ++ (runSock (stepSock st e).1 rest).1.messaging.queue) := by
      simp [List.flatMap_append]
    rw [h1]
    have h2 := hrest.append_left ((stepSock st e).2.flatMap fun o => o.wire.payload)
    refine h2.trans ?_
    have h3 : ((stepSock st e).2.flatMap fun o => o.wire.payload)
        ++ ((stepSock st e).1.messaging.queue ++ submittedOf rest)
      = (((stepSock st e).2.flatMap fun o => o.wire.payload)
          ++ (stepSock st e).1.messaging.queue) ++ submittedOf rest := by
      simp [List.append_assoc]
    rw [h3]
    have h4 := hstep.append_right (submittedOf rest)
    refine h4.trans ?_
    simp [List.append_assoc]

end SkylinkSocket

/-- C4: starting from an empty queue, over any sequence of sends and timer
fires after which the queue is drained empty, every submitted message (in
particular every must-queue message) is handed to the send callback
exactly once, as a singleton or inside a group envelope, the full output
payload being a permutation of the submissions; and each callback
invocation has an explicit outcome: transmitted, or locally rejected with
a warning because the socket object is uninitialized, or locally rejected
with a warning because the socket is not connected — never a silent loss. -/
theorem c4_no_silent_drop (st : SkylinkSocket.SocketState)
    (evs : List SkylinkSocket.SockEv)
    (h0 : st.messaging.queue = [])
    (hdrained : (SkylinkSocket.runSock st evs).1.messaging.queue = []) :
    ((SkylinkSocket.runSock st evs).2.flatMap fun o => o.wire.payload).Perm
        (SkylinkSocket.submittedOf evs)
    ∧ ∀ o ∈ (SkylinkSocket.runSock st evs).2,
        o.disp = SkylinkSocket.Disposition.sent
        ∨ o.disp = SkylinkSocket.Disposition.droppedNoSocket
        ∨ o.disp = SkylinkSocket.Disposition.droppedNotConnected := by
  constructor
  · have h := SkylinkSocket.runSock_payload_perm evs st
    rw [h0, hdrained] at h
    simpa using h
  · intro o _
    cases o with
    | mk w dsp => cases dsp <;> simp

/-- C4 witness: two must-queue messages submitted rapidly and drained by
the timer are both delivered inside one group envelope. -/
theorem c4_no_silent_drop_witness :
    SkylinkSocket.freshSock.messaging.queue = []
    ∧ (SkylinkSocket.runSock SkylinkSocket.freshSock
        [SkylinkSocket.SockEv.submit { type := "stream", mid := "m", rid := "r", body := 1 } 1,
         SkylinkSocket.SockEv.submit { type := "stream", mid := "m", rid := "r", body := 2 } 2,
         SkylinkSocket.SockEv.fire 1000]).1.messaging.queue = []
    ∧ ((SkylinkSocket.runSock SkylinkSocket.freshSock
        [SkylinkSocket.SockEv.submit { type := "stream", mid := "m", rid := "r", body := 1 } 1,
         SkylinkSocket.SockEv.submit { type := "stream", mid := "m", rid := "r", body := 2 } 2,
         SkylinkSocket.SockEv.fire 1000]).2.flatMap fun o => o.wire.payload).Perm
      (SkylinkSocket.submittedOf
        [SkylinkSocket.SockEv.submit { type := "stream", mid := "m", rid := "r", body := 1 } 1,
         SkylinkSocket.SockEv.submit { type := "stream", mid := "m", rid := "r", body := 2 } 2,
         SkylinkSocket.SockEv.fire 1000]) :=
  ⟨rfl, by decide,
    (c4_no_silent_drop SkylinkSocket.freshSock
      [SkylinkSocket.SockEv.submit { type := "stream", mid := "m", rid := "r", body := 1 } 1,
       SkylinkSocket.SockEv.submit { type := "stream", mid := "m", rid := "r", body := 2 } 2,
       SkylinkSocket.SockEv.fire 1000] rfl (by decide)).1⟩

namespace SkylinkSocket

/-- Unfolding equation of runSock on an append. -/
theorem runSock_append (st : SocketState) (l1 l2 : List SockEv) :
    runSock st (l1 ++ l2)
      = ((runSock (runSock st l1).1 l2).1,
         (runSock st l1).2 ++ (runSock (runSock st l1).1 l2).2) := by
  induction l1 generalizing st with
  | nil => simp [runSock]
  | cons e rest ih =>
    simp only [List.cons_append, runSock_cons, ih, List.append_assoc]

/-- Submitting a burst of must-queue messages within the interval of the
last flush, while a drain timer is already pending, only appends them to
the queue in submission order and produces no output. -/
theorem runSock_submits_queued (ms : List Msg) (st : SocketState) (t : Nat)
    (hq : ∀ m ∈ ms, m.type ∈ typesToQueue)
    (hts : t - st.messaging.timestamp.getD 0 < st.messaging.interval)
    (htimer : st.messaging.timer.isNone = false) :
    runSock st (ms.map fun m => SockEv.submit m t)
      = ({ st with messaging := { st.messaging with queue := st.messaging.queue ++ ms } },
         []) := by
  induction ms generalizing st with
  | nil => simp [runSock]
  | cons m ms ih =>
    have hc : (t - st.messaging.timestamp.getD 0 < st.messaging.interval
        ∧ m.type ∈ typesToQueue) := ⟨hts, hq m (by simp)⟩
    have hstep : stepSock st (SockEv.submit m t)
        = ({ st with messaging := { st.messaging with queue := st.messaging.queue ++ [m] } },
           []) := by
      simp [stepSock, send, hc, htimer]
    rw [List.map_cons, runSock_cons, hstep]
    rw [ih { st with messaging := { st.messaging with queue := st.messaging.queue ++ [m] } }
      (fun x hx => hq x (by simp [hx])) hts htimer]
    simp

end SkylinkSocket

/-- C3: twenty must-queue messages submitted within one interval of a
fresh connected transport produce exactly two group envelopes on the two
successive timer boundaries, the first carrying the first sixteen messages
with the mid and rid of the first queued message, the second carrying the
remaining four with the mid and rid of its own first queued message,
preserving submission order; and in general a drain takes the whole queue
(clearing the timer) when it holds fewer than the throughput cap, and
exactly the cap (rescheduling another drain one interval later) when it
holds the cap or more, the envelope always carrying the mid and rid of the
first queued message. -/
theorem c3_batching_cap (ms : List SkylinkSocket.Msg) (hlen : ms.length = 20)
    (hq : ∀ m ∈ ms, m.type ∈ SkylinkSocket.typesToQueue) :
    (SkylinkSocket.runSock SkylinkSocket.freshSock
        ((ms.map fun m => SkylinkSocket.SockEv.submit m 1)
          ++ [SkylinkSocket.SockEv.fire 1000, SkylinkSocket.SockEv.fire 2000])).2
      = [{ wire := SkylinkSocket.Wire.group (ms.take 16)
              (ms.headD default).mid (ms.headD default).rid,
           disp := SkylinkSocket.Disposition.sent },
         { wire := SkylinkSocket.Wire.group (ms.drop 16)
              ((ms.drop 16).headD default).mid ((ms.drop 16).headD default).rid,
           disp := SkylinkSocket.Disposition.sent }]
    ∧ ms.take 16 ++ ms.drop 16 = ms
    ∧ (ms.take 16).length = 16
    ∧ (ms.drop 16).length = 4
    ∧ (SkylinkSocket.runSock SkylinkSocket.freshSock
        ((ms.map fun m => SkylinkSocket.SockEv.submit m 1)
          ++ [SkylinkSocket.SockEv.fire 1000])).1.messaging.timer = some 2000
    ∧ (∀ (s2 : SkylinkSocket.SocketState) (t2 : Nat),
        0 < s2.messaging.queue.length →
        (s2.messaging.queue.length < s2.messaging.throughput →
          SkylinkSocket.delayFn s2 t2
            = ({ s2 with messaging := { s2.messaging with
                  queue := [], timer := none, timestamp := some t2 } },
               [SkylinkSocket.sendFn s2 (SkylinkSocket.Wire.group s2.messaging.queue
                  (s2.messaging.queue.headD default).mid
                  (s2.messaging.queue.headD default).rid)]))
        ∧ (s2.messaging.throughput ≤ s2.messaging.queue.length →
          SkylinkSocket.delayFn s2 t2
            = ({ s2 with messaging := { s2.messaging with
                  queue := s2.messaging.queue.drop s2.messaging.throughput
                  timer := some (t2 + s2.messaging.interval)
                  timestamp := some t2 } },
               [SkylinkSocket.sendFn s2
                  (SkylinkSocket.Wire.group
                    (s2.messaging.queue.take s2.messaging.throughput)
                    (s2.messaging.queue.headD default).mid
                    (s2.messaging.queue.headD default).rid)]))) := by
  obtain ⟨m0, rest, rfl⟩ : ∃ m0 rest, ms = m0 :: rest := by
    cases ms with
    | nil => simp at hlen
    | cons a l => exact ⟨a, l, rfl⟩
  have hrl : rest.length = 19 := by simpa using hlen
  have hm0 : m0.type ∈ SkylinkSocket.typesToQueue := hq m0 (by simp)
  have hstep1 : SkylinkSocket.stepSock SkylinkSocket.freshSock (SkylinkSocket.SockEv.submit m0 1)
      = ({ SkylinkSocket.freshSock with messaging := { SkylinkSocket.freshSock.messaging with
            queue := [m0], timer := some 1000 } }, []) := by
    simp [SkylinkSocket.stepSock, SkylinkSocket.send, SkylinkSocket.freshSock, hm0]
  have hmap : SkylinkSocket.runSock SkylinkSocket.freshSock
      ((m0 :: rest).map fun m => SkylinkSocket.SockEv.submit m 1)
      = ({ SkylinkSocket.freshSock with messaging := { SkylinkSocket.freshSock.messaging with
            queue := m0 :: rest, timer := some 1000 } }, []) := by
    rw [List.map_cons, SkylinkSocket.runSock_cons, hstep1]
    rw [SkylinkSocket.runSock_submits_queued rest
      ({ SkylinkSocket.freshSock with messaging := { SkylinkSocket.freshSock.messaging with
          queue := [m0], timer := some 1000 } }) 1
      (fun x hx => hq x (by simp [hx])) (by simp [SkylinkSocket.freshSock]) rfl]
    simp
  have hfire1 : SkylinkSocket.stepSock
      ({ SkylinkSocket.freshSock with messaging := { SkylinkSocket.freshSock.messaging with
          queue := m0 :: rest, timer := some 1000 } }) (SkylinkSocket.SockEv.fire 1000)
      = ({ SkylinkSocket.freshSock with messaging := { SkylinkSocket.freshSock.messaging with
            queue := (m0 :: rest).drop 16, timer := some 2000, timestamp := some 1000 } },
         [{ wire := SkylinkSocket.Wire.group ((m0 :: rest).take 16) m0.mid m0.rid,
            disp := SkylinkSocket.Disposition.sent }]) := by
    simp [SkylinkSocket.stepSock, SkylinkSocket.delayFn, SkylinkSocket.freshSock,
      SkylinkSocket.sendFn, hrl]
  have hfire2 : SkylinkSocket.stepSock
      ({ SkylinkSocket.freshSock with messaging := { SkylinkSocket.freshSock.messaging with
          queue := (m0 :: rest).drop 16, timer := some 2000, timestamp := some 1000 } })
      (SkylinkSocket.SockEv.fire 2000)
      = ({ SkylinkSocket.freshSock with messaging := { SkylinkSocket.freshSock.messaging with
            queue := [], timer := none, timestamp := some 2000 } },
         [{ wire := SkylinkSocket.Wire.group ((m0 :: rest).drop 16)
              (((m0 :: rest).drop 16).headD default).mid
              (((m0 :: rest).drop 16).headD default).rid,
            disp := SkylinkSocket.Disposition.sent }]) := by
    simp [SkylinkSocket.stepSock, SkylinkSocket.delayFn, SkylinkSocket.freshSock,
      SkylinkSocket.sendFn, hrl]
  refine ⟨?_, List.take_append_drop 16 (m0 :: rest), by simp [hrl], by simp [hrl], ?_, ?_⟩
  · rw [SkylinkSocket.runSock_append, hmap]
    simp only [SkylinkSocket.runSock_cons, hfire1, hfire2]
    simp [SkylinkSocket.runSock]
  · rw [SkylinkSocket.runSock_append, hmap]
    simp only [SkylinkSocket.runSock_cons, hfire1]
    simp [SkylinkSocket.runSock]
  · intro s2 t2 hpos
    constructor
    · intro hlt
      have h1 : s2.messaging.queue.length > 0 := hpos
      simp [SkylinkSocket.delayFn, h1, hlt]
    · intro hge
      have h1 : s2.messaging.queue.length > 0 := hpos
      have h2 : ¬ (s2.messaging.queue.length < s2.messaging.throughput) := Nat.not_lt.mpr hge
      simp [SkylinkSocket.delayFn, h1, h2]

/-- C3 witness: a concrete burst of twenty must-queue messages yields the
two stated group envelopes. -/
theorem c3_batching_cap_witness :
    SkylinkSocket.burst20.length = 20
    ∧ (∀ m ∈ SkylinkSocket.burst20, m.type ∈ SkylinkSocket.typesToQueue)
    ∧ (SkylinkSocket.runSock SkylinkSocket.freshSock
        ((SkylinkSocket.burst20.map fun m => SkylinkSocket.SockEv.submit m 1)
          ++ [SkylinkSocket.SockEv.fire 1000, SkylinkSocket.SockEv.fire 2000])).2
      = [{ wire := SkylinkSocket.Wire.group (SkylinkSocket.burst20.take 16)
              (SkylinkSocket.burst20.headD default).mid
              (SkylinkSocket.burst20.headD default).rid,
           disp := SkylinkSocket.Disposition.sent },
         { wire := SkylinkSocket.Wire.group (SkylinkSocket.burst20.drop 16)
              ((SkylinkSocket.burst20.drop 16).headD default).mid
              ((SkylinkSocket.burst20.drop 16).headD default).rid,
           disp := SkylinkSocket.Disposition.sent }] :=
  ⟨by decide, by decide,
    (c3_batching_cap SkylinkSocket.burst20 (by decide) (by decide)).1⟩

namespace SkylinkSocket

/-- headD coincides with getD at index 0. -/
theorem headD_eq_getD (ps : List Nat) : ps.headD 0 = ps.getD 0 0 := by
  cases ps <;> rfl

/-- getD at a valid index is the element there. -/
theorem getD_eq_elem (ps : List Nat) (i : Nat) (hi : i < ps.length) :
    ps.getD i 0 = ps[i] := by
  simp [List.getElem?_eq_getElem hi]

/-- On a duplicate-free list, the JavaScript indexOf of the element at a
valid index returns that index. -/
theorem jsIndexOf_getElem (ps : List Nat) (hnd : ps.Nodup) :
    ∀ i (hi : i < ps.length), jsIndexOf ps ps[i] = (i : Int) := by
  induction ps with
  | nil => intro i hi; simp at hi
  | cons a rest ih =>
    intro i hi
    cases i with
    | zero => simp [jsIndexOf]
    | succ j =>
      have hj : j < rest.length := by simpa using hi
      have hmem : rest[j] ∈ rest := List.getElem_mem hj
      have ha : (a == rest[j]) = false := by
        rw [beq_eq_false_iff_ne]
        exact fun h => (List.nodup_cons.mp hnd).1 (h ▸ hmem)
      have hrec : jsIndexOf rest rest[j] = (j : Int) :=
        ih (List.nodup_cons.mp hnd).2 j hj
      have hne : (((j : Int)) == -1) = false := by
        rw [beq_eq_false_iff_ne]
        omega
      rw [List.getElem_cons_succ]
      simp [jsIndexOf, ha, hrec, hne]

/-- Reading every position of a list in order reproduces the list. -/
theorem map_getD_range (ps : List Nat) :
    (List.range ps.length).map (fun n => ps.getD n 0) = ps := by
  apply List.ext_getElem
  · simp
  · intro i h1 h2
    simp [List.getElem?_eq_getElem h2]

/-- attemptsOf distributes over append. -/
theorem attemptsOf_append (l1 l2 : List Ev) :
    attemptsOf (l1 ++ l2) = attemptsOf l1 ++ attemptsOf l2 := by
  simp [attemptsOf]

/-- errCount distributes over append. -/
theorem errCount_append (c : Int) (l1 l2 : List Ev) :
    errCount c (l1 ++ l2) = errCount c l1 + errCount c l2 := by
  simp [errCount]

/-- Unfolding equation of runFails on a successor. -/
theorem runFails_succ (n : Nat) (st : SocketState) :
    runFails (n + 1) st
      = ((runFails n (reconnectStep st).1).1,
         (reconnectStep st).2 ++ (runFails n (reconnectStep st).1).2) := rfl

/-- One failure step is exactly one reconnect invocation. -/
theorem runFails_one (st : SocketState) :
    runFails 1 st = ((reconnectStep st).1, (reconnectStep st).2) := by
  simp [runFails_succ, runFails]

/-- runFails splits over an addition of failure counts. -/
theorem runFails_add (a b : Nat) (st : SocketState) :
    runFails (a + b) st
      = ((runFails b (runFails a st).1).1,
         (runFails a st).2 ++ (runFails b (runFails a st).1).2) := by
  induction a generalizing st with
  | zero => simp [runFails]
  | succ m ih =>
    rw [(by omega : m + 1 + b = (m + b) + 1), runFails_succ, ih, runFails_succ]
    simp [List.append_assoc]

/-- connect from the campaign base state targets the first port of the
list under the primary transport. -/
theorem connect_campBase (ps : List Nat) :
    connect (campBase ps)
      = (campState ps Transport.webSocket false (ps.headD 0),
         [Ev.attempt Transport.webSocket (ps.headD 0)]) := rfl

end SkylinkSocket

namespace SkylinkSocket

/-- Folding of the literal prefix of the campaign path. -/
theorem campPath_fold (x : String) :
    "https://" ++ "signaling.temasys.com.sg" ++ ":" ++ x
      = "https://signaling.temasys.com.sg:" ++ x := by
  congr 1

/-- A reconnect failure at a port that is not the last advances to the
next port of the same transport kind, issuing exactly one new attempt and
no terminal error. -/
theorem reconnect_advance (ps : List Nat) (hnd : ps.Nodup) (h0 : 0 ∉ ps)
    (tr : Transport) (fb : Bool) (i : Nat) (hi : i + 1 < ps.length) :
    (reconnectStep (campState ps tr fb (ps.getD i 0))).1
        = campState ps tr fb (ps.getD (i + 1) 0)
    ∧ attemptsOf (reconnectStep (campState ps tr fb (ps.getD i 0))).2
        = [(tr, ps.getD (i + 1) 0)]
    ∧ errCount (-3) (reconnectStep (campState ps tr fb (ps.getD i 0))).2 = 0 := by
  have hii : i < ps.length := by omega
  have hidx : jsIndexOf ps (ps[i]?.getD 0) = (i : Int) := by
    simp only [List.getElem?_eq_getElem hii, Option.getD_some]
    exact jsIndexOf_getElem ps hnd i hii
  have hne1 : ¬ ((i : Int) = -1) := by omega
  have hlt : (i : Int) < (ps.length : Int) - 1 := by omega
  have hmem : ps[i + 1]?.getD 0 ∈ ps := by
    simp only [List.getElem?_eq_getElem hi, Option.getD_some]
    exact List.getElem_mem hi
  have hport : ¬ (ps[i + 1]?.getD 0 = 0) := fun h => h0 (h ▸ hmem)
  refine ⟨?_, ?_, ?_⟩ <;>
    simp [reconnectStep, finishReconnect, connect, campState, campBase, campPath,
      Ports.get, protocolString, hidx, hne1, hlt, hport, attemptsOf, errCount,
      campPath_fold]

/-- A reconnect failure at the last port under the primary transport
switches to the fallback transport at the first port, issuing exactly one
new attempt and no terminal error. -/
theorem reconnect_switch (ps : List Nat) (hnd : ps.Nodup) (h0 : 0 ∉ ps)
    (fb : Bool) (hne : ps ≠ []) :
    (reconnectStep (campState ps Transport.webSocket fb (ps.getD (ps.length - 1) 0))).1
        = campState ps Transport.polling true (ps.getD 0 0)
    ∧ attemptsOf (reconnectStep
        (campState ps Transport.webSocket fb (ps.getD (ps.length - 1) 0))).2
        = [(Transport.polling, ps.getD 0 0)]
    ∧ errCount (-3) (reconnectStep
        (campState ps Transport.webSocket fb (ps.getD (ps.length - 1) 0))).2 = 0 := by
  have hlen : 1 ≤ ps.length := List.length_pos.mpr hne
  have hlast : ps.length - 1 < ps.length := by omega
  have h00 : 0 < ps.length := by omega
  have hidx : jsIndexOf ps (ps[ps.length - 1]?.getD 0) = ((ps.length - 1 : Nat) : Int) := by
    simp only [List.getElem?_eq_getElem hlast, Option.getD_some]
    exact jsIndexOf_getElem ps hnd (ps.length - 1) hlast
  have hcast : ((ps.length - 1 : Nat) : Int) = (ps.length : Int) - 1 := by omega
  have hne1 : ¬ ((ps.length : Int) - 1 = -1) := by omega
  have hnlt : ¬ ((ps.length : Int) - 1 < (ps.length : Int) - 1) := by omega
  have hmem : ps[0]?.getD 0 ∈ ps := by
    simp only [List.getElem?_eq_getElem h00, Option.getD_some]
    exact List.getElem_mem h00
  have hport : ¬ (ps[0]?.getD 0 = 0) := fun h => h0 (h ▸ hmem)
  refine ⟨?_, ?_, ?_⟩ <;>
    simp [reconnectStep, finishReconnect, connect, campState, campBase, campPath,
      Ports.get, protocolString, List.head?_eq_getElem?, hidx, hcast, hne1, hnlt,
      hport, attemptsOf, errCount, campPath_fold]

/-- A reconnect failure at the last port under the fallback transport sets
dead, emits the terminal connectError(-3) once, and issues no attempt. -/
theorem reconnect_dead (ps : List Nat) (hnd : ps.Nodup) (hne : ps ≠ []) :
    reconnectStep (campState ps Transport.polling true (ps.getD (ps.length - 1) 0))
      = ({ campState ps Transport.polling true (ps.getD (ps.length - 1) 0) with
            dead := true },
         [Ev.connectError (-3) Transport.polling]) := by
  have hlen : 1 ≤ ps.length := List.length_pos.mpr hne
  have hlast : ps.length - 1 < ps.length := by omega
  have hidx : jsIndexOf ps (ps[ps.length - 1]?.getD 0) = ((ps.length - 1 : Nat) : Int) := by
    simp only [List.getElem?_eq_getElem hlast, Option.getD_some]
    exact jsIndexOf_getElem ps hnd (ps.length - 1) hlast
  have hcast : ((ps.length - 1 : Nat) : Int) = (ps.length : Int) - 1 := by omega
  have hne1 : ¬ ((ps.length : Int) - 1 = -1) := by omega
  have hnlt : ¬ ((ps.length : Int) - 1 < (ps.length : Int) - 1) := by omega
  simp [reconnectStep, campState, campBase, Ports.get, hidx, hcast, hne1, hnlt]

end SkylinkSocket

namespace SkylinkSocket

/-- After the terminal failure the dead state is a fixed point of the
reconnect logic and no further connection attempts are ever issued, even
under hypothetical further failure events. -/
theorem runFails_dead_fix (ps : List Nat) (hnd : ps.Nodup) (hne : ps ≠ []) (n : Nat) :
    (runFails n { campState ps Transport.polling true (ps.getD (ps.length - 1) 0) with
        dead := true }).1
      = { campState ps Transport.polling true (ps.getD (ps.length - 1) 0) with
          dead := true }
    ∧ attemptsOf (runFails n
        { campState ps Transport.polling true (ps.getD (ps.length - 1) 0) with
          dead := true }).2 = [] := by
  have hlen : 1 ≤ ps.length := List.length_pos.mpr hne
  have hlast : ps.length - 1 < ps.length := by omega
  have hidx : jsIndexOf ps (ps[ps.length - 1]?.getD 0) = ((ps.length - 1 : Nat) : Int) := by
    simp only [List.getElem?_eq_getElem hlast, Option.getD_some]
    exact jsIndexOf_getElem ps hnd (ps.length - 1) hlast
  have hcast : ((ps.length - 1 : Nat) : Int) = (ps.length : Int) - 1 := by omega
  have hne1 : ¬ ((ps.length : Int) - 1 = -1) := by omega
  have hnlt : ¬ ((ps.length : Int) - 1 < (ps.length : Int) - 1) := by omega
  have hstep : reconnectStep
      { campState ps Transport.polling true (ps.getD (ps.length - 1) 0) with dead := true }
      = ({ campState ps Transport.polling true (ps.getD (ps.length - 1) 0) with
            dead := true },
         [Ev.connectError (-3) Transport.polling]) := by
    simp [reconnectStep, campState, campBase, Ports.get, hidx, hcast, hne1, hnlt]
  induction n with
  | zero => simp [runFails, attemptsOf]
  | succ k ih =>
    rw [runFails_succ, hstep]
    simp only [attemptsOf_append]
    refine ⟨ih.1, ?_⟩
    rw [ih.2]
    simp [attemptsOf]

/-- Running j reconnect failures inside one transport phase advances the
port cursor j positions, producing exactly the attempts at the next j
ports of the list under that transport and no terminal error. -/
theorem runFails_phase (ps : List Nat) (hnd : ps.Nodup) (h0 : 0 ∉ ps)
    (tr : Transport) (fb : Bool) :
    ∀ (j i : Nat), i + j < ps.length →
      (runFails j (campState ps tr fb (ps.getD i 0))).1
          = campState ps tr fb (ps.getD (i + j) 0)
      ∧ attemptsOf (runFails j (campState ps tr fb (ps.getD i 0))).2
          = (List.range j).map (fun n => (tr, ps.getD (i + 1 + n) 0))
      ∧ errCount (-3) (runFails j (campState ps tr fb (ps.getD i 0))).2 = 0 := by
  intro j
  induction j with
  | zero =>
    intro i hi
    simp [runFails, attemptsOf, errCount]
  | succ k ih =>
    intro i hi
    have hadv := reconnect_advance ps hnd h0 tr fb i (by omega)
    have hrec := ih (i + 1) (by omega)
    rw [(by omega : i + 1 + k = i + (k + 1))] at hrec
    refine ⟨?_, ?_, ?_⟩
    · rw [runFails_succ, hadv.1]
      exact hrec.1
    · rw [runFails_succ, attemptsOf_append, hadv.1, hadv.2.1, hrec.2.1]
      rw [List.range_succ_eq_map, List.map_cons, List.map_map, List.singleton_append]
      refine List.cons_eq_cons.mpr ⟨by simp, ?_⟩
      apply List.map_congr_left
      intro n hn
      have h : i + 1 + 1 + n = i + 1 + (n + 1) := by omega
      simp [h]
    · rw [runFails_succ, errCount_append, hadv.1, hadv.2.2, hrec.2.2]

/-- The attempts of one full transport phase, read off the port list. -/
theorem attempts_block (ps : List Nat) (hne : ps ≠ []) (tr : Transport) :
    ps.map (fun p => (tr, p))
      = (tr, ps.getD 0 0)
        :: (List.range (ps.length - 1)).map (fun n => (tr, ps.getD (1 + n) 0)) := by
  obtain ⟨k, hk⟩ : ∃ k, ps.length = k + 1 :=
    ⟨ps.length - 1, by have := List.length_pos.mpr hne; omega⟩
  conv_lhs => rw [← map_getD_range ps, List.map_map]
  rw [hk]
  simp only [Nat.add_sub_cancel]
  rw [List.range_succ_eq_map, List.map_cons, List.map_map]
  congr 1
  apply List.map_congr_left
  intro n _
  simp only [Function.comp]
  congr 2
  omega

end SkylinkSocket

open SkylinkSocket in
/-- C2: starting a reconnection campaign over a duplicate-free nonzero
port list of length k (the per-scheme list, shared by both transport
kinds, so the fallback list has m = k ports), the connection attempts are
exactly all k ports under the primary WebSocket transport in order, then,
from the k-th consecutive failure, all k ports under the fallback Polling
transport in order; no transport/port combination is revisited; after the
k + m consecutive failures the terminal step sets dead, emits
connectError(-3) exactly once in the whole campaign, and issues no
attempt, and any further failure processing issues no attempt and leaves
dead set. -/
theorem c2_port_transport_exhaustion (ps : List Nat) (hnd : ps.Nodup)
    (hne : ps ≠ []) (h0 : 0 ∉ ps) :
    attemptsOf ((connect (campBase ps)).2
        ++ (runFails (2 * ps.length) (connect (campBase ps)).1).2)
      = ps.map (fun p => (Transport.webSocket, p))
        ++ ps.map (fun p => (Transport.polling, p))
    ∧ (attemptsOf ((connect (campBase ps)).2
        ++ (runFails (2 * ps.length) (connect (campBase ps)).1).2)).Nodup
    ∧ (runFails (2 * ps.length) (connect (campBase ps)).1).1.dead = true
    ∧ errCount (-3) ((connect (campBase ps)).2
        ++ (runFails (2 * ps.length) (connect (campBase ps)).1).2) = 1
    ∧ ∀ n, 2 * ps.length ≤ n →
        attemptsOf (runFails n (connect (campBase ps)).1).2
          = attemptsOf (runFails (2 * ps.length) (connect (campBase ps)).1).2
        ∧ (runFails n (connect (campBase ps)).1).1.dead = true := by
  have hlen : 1 ≤ ps.length := List.length_pos.mpr hne
  have hc1 : (connect (campBase ps)).1
      = campState ps Transport.webSocket false (ps.getD 0 0) := by
    rw [connect_campBase, headD_eq_getD]
  have hc2 : attemptsOf (connect (campBase ps)).2
      = [(Transport.webSocket, ps.getD 0 0)] := by
    rw [connect_campBase, headD_eq_getD]
    rfl
  have hc3 : errCount (-3) (connect (campBase ps)).2 = 0 := by
    rw [connect_campBase]
    rfl
  have hph1 := runFails_phase ps hnd h0 Transport.webSocket false (ps.length - 1) 0
    (by omega)
  simp only [Nat.zero_add] at hph1
  have hsw := reconnect_switch ps hnd h0 false hne
  have hph2 := runFails_phase ps hnd h0 Transport.polling true (ps.length - 1) 0
    (by omega)
  simp only [Nat.zero_add] at hph2
  have hdd := reconnect_dead ps hnd hne
  have hsplit : 2 * ps.length = (ps.length - 1) + (1 + ((ps.length - 1) + 1)) := by omega
  have hdecomp :
      runFails (2 * ps.length) (campState ps Transport.webSocket false (ps.getD 0 0))
        = ((reconnectStep
              (campState ps Transport.polling true (ps.getD (ps.length - 1) 0))).1,
           (runFails (ps.length - 1)
              (campState ps Transport.webSocket false (ps.getD 0 0))).2
            ++ ((reconnectStep
                  (campState ps Transport.webSocket false (ps.getD (ps.length - 1) 0))).2
              ++ ((runFails (ps.length - 1)
                    (campState ps Transport.polling true (ps.getD 0 0))).2
                ++ (reconnectStep
                    (campState ps Transport.polling true (ps.getD (ps.length - 1) 0))).2))) := by
    rw [hsplit]
    rw [runFails_add (ps.length - 1) (1 + ((ps.length - 1) + 1))]
    rw [hph1.1]
    rw [runFails_add 1 ((ps.length - 1) + 1)]
    rw [runFails_one, hsw.1]
    rw [runFails_add (ps.length - 1) 1]
    rw [hph2.1]
    rw [runFails_one]
  have hstate : (runFails (2 * ps.length)
      (campState ps Transport.webSocket false (ps.getD 0 0))).1
      = { campState ps Transport.polling true (ps.getD (ps.length - 1) 0) with
          dead := true } := by
    rw [hdecomp, hdd]
  have hattfull : attemptsOf ((connect (campBase ps)).2
      ++ (runFails (2 * ps.length) (connect (campBase ps)).1).2)
      = ps.map (fun p => (Transport.webSocket, p))
        ++ ps.map (fun p => (Transport.polling, p)) := by
    rw [hc1, attemptsOf_append, hc2, hdecomp]
    simp only [attemptsOf_append]
    rw [hph1.2.1, hsw.2.1, hph2.2.1, hdd]
    rw [attempts_block ps hne Transport.webSocket, attempts_block ps hne Transport.polling]
    simp [attemptsOf]
  refine ⟨hattfull, ?_, ?_, ?_, ?_⟩
  · rw [hattfull]
    rw [List.nodup_append]
    have hinj1 : Function.Injective (fun p : Nat => (Transport.webSocket, p)) :=
      fun a b h => congrArg Prod.snd h
    have hinj2 : Function.Injective (fun p : Nat => (Transport.polling, p)) :=
      fun a b h => congrArg Prod.snd h
    refine ⟨hnd.map hinj1, hnd.map hinj2, ?_⟩
    intro x hx hy
    simp only [List.mem_map] at hx hy
    obtain ⟨a, _, rfl⟩ := hx
    obtain ⟨b, _, hb⟩ := hy
    exact absurd (congrArg Prod.fst hb) (by simp)
  · rw [hc1, hstate]
  · rw [hc1, errCount_append, hc3, hdecomp]
    simp only [errCount_append]
    rw [hph1.2.2, hsw.2.2, hph2.2.2, hdd]
    rfl
  · intro n hn
    have hfix := runFails_dead_fix ps hnd hne (n - 2 * ps.length)
    rw [hc1]
    rw [(by omega : n = 2 * ps.length + (n - 2 * ps.length))]
    rw [runFails_add (2 * ps.length) (n - 2 * ps.length)]
    rw [hstate]
    refine ⟨?_, ?_⟩
    · rw [attemptsOf_append, hfix.2]
      simp
    · rw [hfix.1]

open SkylinkSocket in
/-- C2 witness: with the default https port list of two ports, the
campaign tries 443 and 3443 over WebSocket, then 443 and 3443 over
Polling, and is dead after the four failures. -/
theorem c2_port_transport_exhaustion_witness :
    ([443, 3443] : List Nat).Nodup
    ∧ ([443, 3443] : List Nat) ≠ []
    ∧ (0 : Nat) ∉ ([443, 3443] : List Nat)
    ∧ attemptsOf ((connect (campBase [443, 3443])).2
        ++ (runFails (2 * ([443, 3443] : List Nat).length)
            (connect (campBase [443, 3443])).1).2)
      = ([443, 3443] : List Nat).map (fun p => (Transport.webSocket, p))
        ++ ([443, 3443] : List Nat).map (fun p => (Transport.polling, p))
    ∧ (runFails (2 * ([443, 3443] : List Nat).length)
        (connect (campBase [443, 3443])).1).1.dead = true :=
  ⟨by decide, by decide, by decide,
    (c2_port_transport_exhaustion [443, 3443] (by decide) (by decide) (by decide)).1,
    (c2_port_transport_exhaustion [443, 3443] (by decide) (by decide) (by decide)).2.2.1⟩
